import Mathlib

/-!
Verification development for the `kit` code-intelligence service.

Shallow embedding of the parts of the source relevant to the checked
properties:

* `src/kit/mcp/server.py` — `KitServerLogic.open_repository`, the
  `_check_within_repo` path guard, and the `call_tool` stdio handler.
* `src/kit/summaries.py` — `Summarizer.summarize_file`,
  `Summarizer.summarize_function` and the module constants.
* `src/kit/api/app.py` — the `/repository/{id}/summary` endpoint.
* `src/kit/pr_review/simple_reviewer.py` — `parse_pr_url` and
  `review_pr_simple`.

Python strings are modelled as Lean `String` (or `List Char` where the
code manipulates them positionally), machine integers as `Nat`, `None`
as `Option.none`, and raised exceptions as `Except` errors.  External
collaborators (the LLM SDKs, `requests`, `tiktoken`) enter as explicit
parameters so the embedded functions stay pure and executable.
-/

namespace Kit

/-! ### Repository-open logic (`KitServerLogic.open_repository`)

`open_repository` constructs a `Repository`, draws `repo_id =
str(uuid.uuid4())`, stores the repository under that id and returns the
id.  The `uuid.uuid4()` draw is modelled deterministically as a
fresh-identifier supply (`nextId` counter): each call consumes one fresh
id, and the id does not depend on the call's arguments. -/

/-- State of `KitServerLogic`: the `_repos` map (id to opened source),
the `_analyzers` map (id to per-repo analyzer dict, empty at open time),
and the fresh-id supply standing in for `uuid.uuid4()`. -/
structure ServerState where
  repos : List (Nat × String) := []
  analyzersFor : List Nat := []
  nextId : Nat := 0
deriving Repr, DecidableEq

/-- Model of `KitServerLogic.open_repository` (server.py lines 133-145) on the
success path: store the repository under a freshly drawn id, create its
empty analyzer dict, and return the id. -/
def openRepository (st : ServerState) (pathOrUrl : String) : Nat × ServerState :=
  (st.nextId,
   { repos := st.repos ++ [(st.nextId, pathOrUrl)]
     analyzersFor := st.analyzersFor ++ [st.nextId]
     nextId := st.nextId + 1 })

/-! ### Path guard (`KitServerLogic._check_within_repo`)

The guard computes `requested = (Path(repo.repo_path) / path).resolve()`
and rejects unless `str(requested).startswith(str(Path(repo.repo_path).resolve()))`.
Absolute paths are modelled as lists of components; `resolve` is the
lexical normalization of `.` and `..` (symlinks are outside the model);
the repo root is assumed already resolved, as it is for an opened
repository. -/

/-- Split a POSIX path string into its `/`-separated segments
(empty segments from duplicated slashes included; they are discarded by
normalization, as `Path` does). -/
def splitSegs (cs : List Char) : List (List Char) :=
  match cs with
  | [] => [[]]
  | c :: rest =>
    let r := splitSegs rest
    if c = '/' then [] :: r
    else match r with
      | s :: ss => (c :: s) :: ss
      | [] => [[c]]

/-- Joining as `pathlib` does: `Path(root) / path` ignores `root` when `path` is
absolute. Produces the unnormalized component list. -/
def joinPy (root : List String) (path : String) : List String :=
  let segs := (splitSegs path.data).map (fun s => String.mk s)
  match path.data with
  | '/' :: _ => segs
  | _ => root ++ segs

/-- Lexical `Path.resolve()`: drop empty and `.` segments, let `..` pop
the last kept component (staying at the root when there is none). -/
def resolveSegs (segs : List String) : List String :=
  segs.foldl
    (fun acc s =>
      if s = "" ∨ s = "." then acc
      else if s = ".." then acc.dropLast
      else acc ++ [s])
    []

/-- Rendering `str()` of an absolute `Path` given by its components. -/
def renderPath (comps : List String) : String :=
  match comps with
  | [] => "/"
  | _ => comps.foldl (fun acc c => acc ++ "/" ++ c) ""

/-- Python `str.startswith`, computed on the character lists. -/
def strStartsWith (s pre : String) : Bool :=
  pre.data.isPrefixOf s.data

/-- Model of `KitServerLogic._check_within_repo` (server.py lines 455-464):
resolve `path` against the repo root and accept iff the rendered
absolute path string starts with the rendered root string.  `none`
models `MCPError(INVALID_PARAMS, "Path traversal outside repository
root")`; `some` carries the accepted absolute path. -/
def checkWithinRepo (root : List String) (path : String) : Option (List String) :=
  let requested := resolveSegs (joinPy root path)
  if strStartsWith (renderPath requested) (renderPath root) then some requested
  else none

/-- Spec-side notion (§4.7): `p` is a descendant of the root iff the
root's components are a prefix of `p`'s components. -/
def isDescendant (root p : List String) : Bool :=
  root.isPrefixOf p

/-! ### PR URL parsing (`SimplePRReviewer.parse_pr_url`)

The source matches `re.match(r"https://github\.com/([^/]+)/([^/]+)/pull/(\d+)", pr_input)`.
`re.match` anchors at the start of the string only; `[^/]+` cannot cross
a slash, so each capture is the maximal slash-free run, and `(\d+)` is
the maximal digit run.  The embedding works on the character list. -/

/-- Drop the literal prefix `pre` from `cs`; `none` when `cs` does not
start with `pre`. -/
def dropPfx : List Char → List Char → Option (List Char)
  | [], cs => some cs
  | _ :: _, [] => none
  | p :: ps, c :: cs => if p = c then dropPfx ps cs else none

/-- Numeric value of a digit run, as `int()` reads it. -/
def natOfDigits (ds : List Char) : Nat :=
  ds.foldl (fun n c => n * 10 + (c.toNat - 48)) 0

/-- The character class `[^/]` of the URL regex. -/
def notSlash (c : Char) : Bool :=
  c ≠ '/' 

/-- Model of `SimplePRReviewer.parse_pr_url` (simple_reviewer.py lines 29-38) on
the character list: `some (owner, repo, n)` on a regex match, `none` for
`raise ValueError(f"Invalid GitHub PR URL: ...")`. -/
def parsePrUrlL (cs : List Char) : Option (String × String × Nat) :=
  match dropPfx "https://github.com/".data cs with
  | none => none
  | some r1 =>
    let owner := r1.takeWhile notSlash
    if owner.isEmpty then none
    else
      match r1.dropWhile notSlash with
      | '/' :: r3 =>
        let repo := r3.takeWhile notSlash
        if repo.isEmpty then none
        else
          match dropPfx "/pull/".data (r3.dropWhile notSlash) with
          | none => none
          | some r5 =>
            let ds := r5.takeWhile Char.isDigit
            if ds.isEmpty then none
            else some (String.mk owner, String.mk repo, natOfDigits ds)
      | _ => none

/-- Model of `SimplePRReviewer.parse_pr_url` on a `String`. -/
def parsePrUrl (s : String) : Option (String × String × Nat) :=
  parsePrUrlL s.data

/-- Spec-side definition, from §4.10 "accept
`https://github.com/<owner>/<repo>/pull/<n>`; otherwise `InvalidInput`":
the WHOLE character list is the scheme-host prefix, a nonempty slash-free
owner, `/`, a nonempty slash-free repo, `/pull/`, and a nonempty run of
digits reaching the end of the input. -/
def exactPrUrlFormL (cs : List Char) : Bool :=
  match dropPfx "https://github.com/".data cs with
  | none => false
  | some r1 =>
    let owner := r1.takeWhile notSlash
    if owner.isEmpty then false
    else
      match r1.dropWhile notSlash with
      | '/' :: r3 =>
        let repo := r3.takeWhile notSlash
        if repo.isEmpty then false
        else
          match dropPfx "/pull/".data (r3.dropWhile notSlash) with
          | none => false
          | some r5 => !r5.isEmpty && r5.all Char.isDigit
      | _ => false

/-- Spec-side exact PR-URL form, on a `String`. -/
def exactPrUrlForm (s : String) : Bool :=
  exactPrUrlFormL s.data

/-! ### Summarizer (`src/kit/summaries.py`)

`summarize_file` / `summarize_function` are embedded with their external
collaborators as parameters: the tiktoken-based
`_count_openai_chat_tokens` as `countChatTokens` (returning `none` when
no encoder is available), and the provider SDK response as a
`ProviderResp`.  Each embedded function returns the Python result
(`Except` error = raised exception) paired with a `Bool` recording
whether a provider request was issued. -/

/-- Exceptions raised across `summaries.py` and `api/app.py`. -/
inductive PyErr
  | fileNotFound (msg : String)
  | valueError (msg : String)
  | llmError (msg : String)
  | importError (msg : String)
  | symbolNotFound (msg : String)
  | httpExc (status : Nat) (detail : String)
deriving Repr, DecidableEq

/-- The three config dataclasses, reduced to the constructor tag and the
`model` field used by the summarize paths. -/
inductive LLMConfig
  | openaiCfg (model : String)
  | anthropicCfg (model : String)
  | googleCfg (model : String)
deriving Repr, DecidableEq

/-- What the provider SDK hands back if a request is issued: the
response text (`none` models a Python `None` content) and, for the
Google path, an optional prompt-feedback block reason. -/
structure ProviderResp where
  text : Option String := none
  blockReason : Option String := none
deriving Repr, DecidableEq

/-- Python `str.isspace` characters relevant to `str.strip()`. -/
def isPySpace (c : Char) : Bool :=
  c = ' ' || c = '\t' || c = '\n' || c = '\r' || c.toNat = 11 || c.toNat = 12

/-- Python `str.strip()`. -/
def pyStrip (s : String) : String :=
  String.mk (((s.data.dropWhile isPySpace).reverse.dropWhile isPySpace).reverse)

/-- Python truthiness of a string (`not s`): emptiness, computed on the
character list. -/
def strIsEmpty (s : String) : Bool :=
  s.data.isEmpty

/-- Constant `MAX_CODE_LENGTH_CHARS` (summaries.py line 83); declared in the
module but referenced nowhere in it. -/
def MAX_CODE_LENGTH_CHARS : Nat := 50000

/-- Constant `MAX_FILE_SUMMARIZE_CHARS` (summaries.py line 84). -/
def MAX_FILE_SUMMARIZE_CHARS : Nat := 25000

/-- Constant `OPENAI_MAX_PROMPT_TOKENS` (summaries.py line 85). -/
def OPENAI_MAX_PROMPT_TOKENS : Nat := 15000

/-- The local `MAX_CHARS_FOR_SUMMARY = 400_000` bound repeated inside
each summarize method. -/
def MAX_CHARS_FOR_SUMMARY : Nat := 400000

/-- The oversize string `summarize_file` returns past
`MAX_FILE_SUMMARIZE_CHARS` (summaries.py line 276). -/
def fileTooLargeLimitsMsg (n : Nat) : String :=
  "File content too large (" ++ toString n ++ " characters) to summarize with current limits."

/-- The oversize string of the second, unreachable `summarize_file`
bound (summaries.py line 287). -/
def fileTooLargeMsg (n : Nat) : String :=
  "File content too large (" ++ toString n ++ " characters) to summarize."

/-- The oversize string of `summarize_function` (summaries.py line 409). -/
def functionTooLargeMsg (n : Nat) : String :=
  "Function content too large (" ++ toString n ++ " characters) to summarize."

/-- The string the OpenAI branches set when the counted prompt tokens
exceed the ceiling (summaries.py lines 311, 433, 553). -/
def promptTooLargeMsg (c : Nat) : String :=
  "Summary generation failed: OpenAI prompt too large (" ++
    (toString c ++ " tokens). Limit is " ++ toString OPENAI_MAX_PROMPT_TOKENS) ++
    " tokens."

/-- The provider dispatch shared by the three summarize methods: returns
the `summary` optional string as the Python code leaves it after the
`if isinstance(self.config, ...)` chain, with the flag telling whether
the provider SDK was invoked.  Only the OpenAI branch consults
`countChatTokens`; when the count is available and exceeds
`OPENAI_MAX_PROMPT_TOKENS` the request is skipped and `summary` is set
to the too-large message. -/
def chatDispatch (cfg : LLMConfig)
    (countChatTokens : List (String × String) → Option Nat)
    (resp : ProviderResp) (sysPrompt userPrompt : String) :
    Option String × Bool :=
  match cfg with
  | .openaiCfg _ =>
    let messages := [("system", sysPrompt), ("user", userPrompt)]
    match countChatTokens messages with
    | some c =>
      if c > OPENAI_MAX_PROMPT_TOKENS then (some (promptTooLargeMsg c), false)
      else (resp.text, true)
    | none => (resp.text, true)
  | .anthropicCfg _ => (resp.text, true)
  | .googleCfg _ =>
    match resp.blockReason with
    | some reason =>
      (some s!"Summary generation failed: Prompt blocked by API (Reason: {reason})", true)
    | none =>
      match resp.text with
      | none => (some "Summary generation failed: No text returned by API.", true)
      | some t =>
        if strIsEmpty t then (some "Summary generation failed: No text returned by API.", true)
        else (some t, true)

/-- The tail of each summarize method: `if not summary or not
summary.strip(): raise LLMError(...)` — the raise happens inside the
`try`, so the outer `except Exception` rewraps it into the
"Error communicating with LLM API" `LLMError` carried by `emptyMsg` —
`else return summary.strip()`. -/
def finalizeSummary (emptyMsg : String) :
    Option String × Bool → Except PyErr String × Bool
  | (none, called) => (.error (.llmError emptyMsg), called)
  | (some s, called) =>
    if strIsEmpty (pyStrip s) then (.error (.llmError emptyMsg), called)
    else (.ok (pyStrip s), called)

/-- The fixed system prompt of `summarize_file`. -/
def sysFilePrompt : String :=
  "You are an expert assistant skilled in creating concise and informative code summaries."

/-- The user prompt of `summarize_file`. -/
def userFilePrompt (path fc : String) : String :=
  s!"Summarize the following code from the file '{path}'. Provide a high-level overview of its purpose, key components, and functionality. Focus on what the code does, not just how it's written. The code is:\n\n```\n{fc}\n```"

/-- Model of `Summarizer.summarize_file` (summaries.py lines 247-369).
`content` is the outcome of `repo.get_file_content` (`none` = the file
is missing and `FileNotFoundError` is re-raised). -/
def summarizeFile (cfg : LLMConfig)
    (countChatTokens : List (String × String) → Option Nat)
    (resp : ProviderResp) (path : String) (content : Option String) :
    Except PyErr String × Bool :=
  match content with
  | none => (.error (.fileNotFound s!"File not found via repo: {path}"), false)
  | some fc =>
    if strIsEmpty (pyStrip fc) then (.ok "", false)
    else if fc.length > MAX_FILE_SUMMARIZE_CHARS then
      (.ok (fileTooLargeLimitsMsg fc.length), false)
    else if fc.length > MAX_CHARS_FOR_SUMMARY then
      (.ok (fileTooLargeMsg fc.length), false)
    else
      finalizeSummary
        s!"Error communicating with LLM API: LLM returned an empty summary for file {path}."
        (chatDispatch cfg countChatTokens resp sysFilePrompt (userFilePrompt path fc))

/-- One extracted symbol dictionary as `summarize_function` reads it;
`none` in a field models the key being absent. -/
structure Sym where
  name : Option String := none
  nodePath : Option String := none
  type : Option String := none
  code : Option String := none
deriving Repr, DecidableEq

/-- Lookup `symbol.get("node_path", symbol.get("name"))`. -/
def symGetName (s : Sym) : Option String :=
  match s.nodePath with
  | some v => some v
  | none => s.name

/-- Python `str.upper()` over the ASCII identifiers used as symbol
types. -/
def pyUpper (s : String) : String :=
  String.mk (s.data.map Char.toUpper)

/-- The symbol-location loop of `summarize_function` (summaries.py lines
389-396): the `code` field of the first symbol whose
`node_path`-or-`name` equals `funcName` and whose upper-cased type is
`FUNCTION` or `METHOD`. -/
def findFunctionCode (symbols : List Sym) (funcName : String) : Option String :=
  match symbols.find? (fun s =>
      symGetName s == some funcName &&
      (pyUpper (s.type.getD "") == "FUNCTION" || pyUpper (s.type.getD "") == "METHOD")) with
  | none => none
  | some s => s.code

/-- The fixed system prompt of `summarize_function`. -/
def sysFunctionPrompt : String :=
  "You are an expert assistant skilled in creating concise code summaries for functions."

/-- The user prompt of `summarize_function`. -/
def userFunctionPrompt (path funcName fcode : String) : String :=
  s!"Summarize the following function named '{funcName}' from the file '{path}'. Describe its purpose, parameters, and return value. The function code is:\n\n```\n{fcode}\n```"

/-- Model of `Summarizer.summarize_function` (summaries.py lines 371-489).
`symbols` is the result of `repo.extract_symbols(file_path)`. -/
def summarizeFunction (cfg : LLMConfig)
    (countChatTokens : List (String × String) → Option Nat)
    (resp : ProviderResp) (path funcName : String) (symbols : List Sym) :
    Except PyErr String × Bool :=
  match findFunctionCode symbols funcName with
  | none =>
    (.error (.valueError s!"Could not find function '{funcName}' in '{path}'."), false)
  | some fcode =>
    if strIsEmpty fcode then
      (.error (.valueError s!"Could not find function '{funcName}' in '{path}'."), false)
    else if fcode.length > MAX_CHARS_FOR_SUMMARY then
      (.ok (functionTooLargeMsg fcode.length), false)
    else
      finalizeSummary
        s!"Error communicating with LLM API for function {funcName}: LLM returned an empty summary for function {funcName}."
        (chatDispatch cfg countChatTokens resp sysFunctionPrompt
          (userFunctionPrompt path funcName fcode))

/-! ### HTTP summary endpoint (`api/app.py`, `get_summary`)

The endpoint body is embedded over the outcomes of the summarizer calls
it may make (`fileRes` for `summarize_file`, `fnRes` / `clsRes` for
`summarize_function` / `summarize_class` on the given symbol).  The
result is `Except (status × detail) summary`.  Exceptions that no
`except` clause of `get_summary` matches fall through to FastAPI's
default handler, a 500 response. -/

/-- The `try` body of `get_summary` (app.py lines 130-154): only a
`SymbolNotFoundError` from `summarize_function` moves on to
`summarize_class`; only a `SymbolNotFoundError` from both produces the
explicit 404 `HTTPException`. -/
def getSummaryBody (fileRes fnRes clsRes : Except PyErr String)
    (path : String) (symbolName : Option String) : Except PyErr String :=
  match symbolName with
  | some symName =>
    (match fnRes with
     | .error (.symbolNotFound _) =>
       (match clsRes with
        | .error (.symbolNotFound _) =>
          .error (.httpExc 404
            s!"Symbol '{symName}' not found as a function or class in '{path}'.")
        | r => r)
     | r => r)
  | none => fileRes

/-- Model of `get_summary` (app.py lines 122-168) after handle lookup: run the
body and map exceptions through the endpoint's `except` clauses in
source order (`FileNotFoundError` 404, `ValueError` 400, `LLMError` 503,
`ImportError` 501); an `HTTPException` raised inside the body matches no
clause and keeps its status; anything else reaches FastAPI's default 500
handler. -/
def getSummary (fileRes fnRes clsRes : Except PyErr String)
    (path : String) (symbolName : Option String) :
    Except (Nat × String) String :=
  match getSummaryBody fileRes fnRes clsRes path symbolName with
  | .ok s => .ok s
  | .error e =>
    match e with
    | .httpExc st d => .error (st, d)
    | .fileNotFound m => .error (404, m)
    | .valueError m => .error (400, s!"Configuration error: {m}")
    | .llmError m => .error (503, s!"LLM service error: {m}")
    | .importError m => .error (501, s!"Server capability error: Missing LLM SDK: {m}")
    | .symbolNotFound _ => .error (500, "Internal Server Error")

/-! ### Stdio tool-call handler (`kit/mcp/server.py`, `call_tool`)

The handler body is a chain over the fixed tool names; each branch
validates the arguments with its pydantic model and then calls the
logic surface.  The embedding abstracts a single incoming request: the
per-tool pydantic parse is `validate` (error = `ValidationError`
message) and the per-tool logic-plus-content construction is `run`,
which may raise an `MCPError` or any other exception. -/

/-- JSON-RPC code `INVALID_PARAMS` from `mcp.types`. -/
def INVALID_PARAMS : Int := -32602

/-- JSON-RPC code `INTERNAL_ERROR` from `mcp.types`. -/
def INTERNAL_ERROR : Int := -32603

/-- Exceptions the `call_tool` body can raise. -/
inductive ToolExc
  | validationError (msg : String)
  | mcpError (code : Int) (msg : String)
  | otherExc (msg : String)
deriving Repr, DecidableEq

/-- The content items a tool call produces. -/
inductive McpContent
  | textContent (text : String)
  | resourceContent (resource : String) (uri : String)
  | errorContent (code : Int) (message : String)
deriving Repr, DecidableEq

/-- The tool names of the `if/elif` chain in `call_tool` (server.py
lines 473-519), in source order. -/
def knownTools : List String :=
  ["open_repository", "search_code", "get_file_content", "extract_symbols",
   "find_symbol_usages", "get_file_tree", "semantic_search",
   "get_documentation", "get_code_summary"]

/-- One incoming tool-call request: the pydantic parse and the logic
call of whichever branch matches its tool name. -/
structure CallEnv where
  validate : String → Except String Unit
  run : String → Except ToolExc (List McpContent)

/-- The `try` body of `call_tool`: a known tool parses its arguments and
runs its branch; an unknown tool raises
`MCPError(INVALID_PARAMS, f"Unknown tool: {name}")`. -/
def callToolBody (env : CallEnv) (name : String) :
    Except ToolExc (List McpContent) :=
  if knownTools.contains name then
    match env.validate name with
    | .error m => .error (.validationError m)
    | .ok _ => env.run name
  else .error (.mcpError INVALID_PARAMS s!"Unknown tool: {name}")

/-- Model of `call_tool` (server.py lines 470-527): every exception from the body
is converted to an error-content item — `ValidationError` to
`INVALID_PARAMS`, `MCPError` to its own code, anything else to
`INTERNAL_ERROR` with the exception message — so the handler always
returns a content list. -/
def callTool (env : CallEnv) (name : String) : List McpContent :=
  match callToolBody env name with
  | .ok cs => cs
  | .error (.validationError m) => [.errorContent INVALID_PARAMS m]
  | .error (.mcpError c m) => [.errorContent c m]
  | .error (.otherExc m) => [.errorContent INTERNAL_ERROR m]

/-! ### Simple PR review run (`pr_review/simple_reviewer.py`)

`review_pr_simple` is embedded over the outcomes of its network and LLM
collaborators.  Printed status lines (including the low-quality warning)
carry no data flow and are elided; what matters is which outcomes reach
the returned value. -/

/-- The PR metadata fields `review_pr_simple` reads. -/
structure PrDetails where
  title : String
  author : String
deriving Repr, DecidableEq

/-- One changed-file record from the GitHub files listing. -/
structure PrFile where
  filename : String
  additions : Nat
  deletions : Nat
deriving Repr, DecidableEq

/-- Outcome of `validate_review_quality`: the quality score (a float in
[0,1], modelled as a rational) and the issue list. -/
structure ValidationRes where
  score : ℚ
  issues : List String
deriving Repr, DecidableEq

/-- Collaborator outcomes for one `review_pr_simple` run.  `details`,
`files` model the GitHub fetches (error = `requests.RequestException`
message), `analysis` the `analyze_pr_simple` coroutine (error = any
exception message), and `validation` the quality-validation block
(error = the exception its `except` clause swallows). -/
structure ReviewEnv where
  details : Except String PrDetails
  files : Except String (List PrFile)
  analysis : Except String String
  validation : Except String ValidationRes
  kitVersion : String
  providerName : String

/-- Model of `SimplePRReviewer._generate_review_comment` (simple_reviewer.py
lines 245-254). -/
def generateReviewComment (kitVersion providerName analysis : String) : String :=
  s!"## 🛠️ Kit Code Review\n\n{analysis}\n\n---\n*Generated by [cased kit](https://github.com/cased/kit) v{kitVersion} using {providerName}*\n"

/-- Model of `SimplePRReviewer.review_pr_simple` (simple_reviewer.py lines
196-243): parse the URL, fetch details and files, analyze, then run the
quality-validation block — whose outcome, low score or exception, is
only printed — and return the generated review comment.  `Except.error`
models the re-raised `RuntimeError`s of the outer handlers. -/
def reviewPrSimple (env : ReviewEnv) (prInput : String) : Except String String :=
  match parsePrUrl prInput with
  | none => .error s!"Simple review failed: Invalid GitHub PR URL: {prInput}"
  | some _ =>
    match env.details with
    | .error e => .error s!"GitHub API error: {e}"
    | .ok _ =>
      match env.files with
      | .error e => .error s!"GitHub API error: {e}"
      | .ok _ =>
        match env.analysis with
        | .error e => .error s!"Simple review failed: {e}"
        | .ok analysis =>
          let comment := generateReviewComment env.kitVersion env.providerName analysis
          match env.validation with
          | .ok _ => .ok comment
          | .error _ => .ok comment

/-! ### Concrete fixtures used when instantiating the theorems -/

/-- A 25,001-character file content, just over `MAX_FILE_SUMMARIZE_CHARS`. -/
def bigFileContent : String := String.mk (List.replicate 25001 'a')

/-- A 400,001-character function body, just over the
`MAX_CHARS_FOR_SUMMARY` bound actually applied by `summarize_function`. -/
def hugeFnCode : String := String.mk (List.replicate 400001 'a')

/-- A 50,001-character function body, just over the declared (but
unused) `MAX_CODE_LENGTH_CHARS` bound. -/
def midFnCode : String := String.mk (List.replicate 50001 'a')

/-- A one-symbol extraction result holding the given function body. -/
def fnSymbols (code : String) : List Sym :=
  [{ name := some "big_fn", type := some "function", code := some code }]

/-- A request whose arguments validate and whose logic branch raises a
non-MCP exception. -/
def envRunBoom : CallEnv :=
  { validate := fun _ => .ok (), run := fun _ => .error (.otherExc "boom") }

/-- A request whose pydantic parse fails. -/
def envBadArgs : CallEnv :=
  { validate := fun _ => .error "1 validation error for SearchParams",
    run := fun _ => .ok [] }

/-- A review run whose fetches and analysis succeed and whose validator
reports a low quality score. -/
def lowScoreEnv : ReviewEnv :=
  { details := .ok { title := "Add feature", author := "octocat" }
    files := .ok [{ filename := "a.py", additions := 3, deletions := 1 }]
    analysis := .ok "Looks fine overall."
    validation := .ok { score := 1/2, issues := ["review too short"] }
    kitVersion := "dev"
    providerName := "anthropic" }

/-! ## Helper lemmas -/

/-- Stripping is the identity on a string whose first and last characters
are not whitespace. -/
theorem pyStrip_eq_self_hl (s : String) (a e : Char)
    (hh : s.data.head? = some a) (ha : isPySpace a = false)
    (hl : s.data.getLast? = some e) (he : isPySpace e = false) :
    pyStrip s = s := by
  obtain ⟨d⟩ := s
  unfold pyStrip
  simp only at hh hl
  have h1 : d.dropWhile isPySpace = d := by
    cases d with
    | nil => rfl
    | cons x xs =>
      have hx : x = a := by simpa using hh
      subst hx
      simp [List.dropWhile_cons, ha]
  have h2 : d.reverse.dropWhile isPySpace = d.reverse := by
    cases hr : d.reverse with
    | nil => rfl
    | cons x xs =>
      have hx : d.getLast? = some x := by
        rw [← List.head?_reverse, hr]; rfl
      rw [hl] at hx
      have hx' : x = e := by simpa using hx.symm
      subst hx'
      simp [List.dropWhile_cons, he]
  rw [h1, h2, List.reverse_reverse]

/-- A string with a first character is not empty. -/
theorem strIsEmpty_false_of_head (s : String) (a : Char)
    (hh : s.data.head? = some a) : strIsEmpty s = false := by
  unfold strIsEmpty
  cases hd : s.data with
  | nil => rw [hd] at hh; cases hh
  | cons x xs => simp

/-- The too-large message starts with `S`. -/
theorem promptTooLargeMsg_head (c : Nat) :
    (promptTooLargeMsg c).data.head? = some 'S' := by
  unfold promptTooLargeMsg
  rw [String.data_append, String.data_append]
  rw [List.head?_append_of_ne_nil _
    (List.append_ne_nil_of_left_ne_nil (by decide) _)]
  rw [List.head?_append_of_ne_nil _ (by decide)]
  decide

/-- The too-large message ends with a dot. -/
theorem promptTooLargeMsg_last (c : Nat) :
    (promptTooLargeMsg c).data.getLast? = some '.' := by
  unfold promptTooLargeMsg
  rw [String.data_append, List.getLast?_append]
  rfl

/-- Stripping the too-large message is the identity. -/
theorem pyStrip_promptTooLargeMsg (c : Nat) :
    pyStrip (promptTooLargeMsg c) = promptTooLargeMsg c :=
  pyStrip_eq_self_hl _ 'S' '.' (promptTooLargeMsg_head c) (by decide)
    (promptTooLargeMsg_last c) (by decide)

/-- The finalize step preserves the provider-called flag. -/
theorem finalizeSummary_snd (em : String) (o : Option String) (b : Bool) :
    (finalizeSummary em (o, b)).2 = b := by
  cases o with
  | none => rfl
  | some s =>
    rw [show finalizeSummary em (some s, b) =
        (if strIsEmpty (pyStrip s) = true then (.error (.llmError em), b)
         else (.ok (pyStrip s), b)) from rfl]
    split <;> rfl

/-- Any non-blank content over `MAX_FILE_SUMMARIZE_CHARS` makes
`summarize_file` return the with-current-limits string without a
provider call. -/
theorem summarizeFile_oversize_aux (cfg : LLMConfig)
    (est : List (String × String) → Option Nat) (resp : ProviderResp)
    (path fc : String) (h1 : strIsEmpty (pyStrip fc) = false)
    (h2 : fc.length > MAX_FILE_SUMMARIZE_CHARS) :
    summarizeFile cfg est resp path (some fc) =
      (.ok (fileTooLargeLimitsMsg fc.length), false) := by
  simp only [summarizeFile]
  rw [if_neg (by simp [h1]), if_pos h2]

/-- Any located span over `MAX_CHARS_FOR_SUMMARY` makes
`summarize_function` return its oversize string without a provider
call. -/
theorem summarizeFunction_oversize_aux (cfg : LLMConfig)
    (est : List (String × String) → Option Nat) (resp : ProviderResp)
    (path funcName : String) (symbols : List Sym) (fcode : String)
    (h0 : findFunctionCode symbols funcName = some fcode)
    (h1 : strIsEmpty fcode = false)
    (h2 : fcode.length > MAX_CHARS_FOR_SUMMARY) :
    summarizeFunction cfg est resp path funcName symbols =
      (.ok (functionTooLargeMsg fcode.length), false) := by
  simp only [summarizeFunction]
  rw [h0]
  change (if strIsEmpty fcode = true then _ else _) = _
  rw [if_neg (by simp [h1]), if_pos h2]

/-- Stripping an all-`a` string is the identity. -/
theorem strip_replicate_a (n : Nat) :
    pyStrip (String.mk (List.replicate (n + 1) 'a')) =
      String.mk (List.replicate (n + 1) 'a') := by
  apply pyStrip_eq_self_hl _ 'a' 'a' _ (by decide) _ (by decide)
  · show (List.replicate (n + 1) 'a').head? = some 'a'
    rw [List.head?_replicate]
    simp
  · show (List.replicate (n + 1) 'a').getLast? = some 'a'
    rw [List.getLast?_replicate]
    simp

/-- An all-`a` string is not empty. -/
theorem strIsEmpty_replicate_a (n : Nat) :
    strIsEmpty (String.mk (List.replicate (n + 1) 'a')) = false := by
  apply strIsEmpty_false_of_head _ 'a'
  show (List.replicate (n + 1) 'a').head? = some 'a'
  rw [List.head?_replicate]
  simp

/-- Length of an all-`a` string. -/
theorem length_replicate_str (n : Nat) :
    (String.mk (List.replicate n 'a')).length = n := by
  show (List.replicate n 'a').length = n
  rw [List.length_replicate]

/-- Dropping a prefix succeeds exactly on an extension of it. -/
theorem dropPfx_eq_some (ps : List Char) :
    ∀ cs rest, dropPfx ps cs = some rest → cs = ps ++ rest := by
  induction ps with
  | nil => intro cs rest h; simpa [dropPfx] using h
  | cons p ps ih =>
    intro cs rest h
    cases cs with
    | nil => simp [dropPfx] at h
    | cons c cs' =>
      by_cases hpc : p = c
      · subst hpc
        simp only [dropPfx, if_pos rfl] at h
        simpa using ih cs' rest h
      · simp [dropPfx, hpc] at h

/-- Dropping a prefix from an extension of it yields the extension. -/
theorem dropPfx_append (ps rest : List Char) :
    dropPfx ps (ps ++ rest) = some rest := by
  induction ps with
  | nil => rfl
  | cons p ps ih => simpa [dropPfx] using ih

/-- Scanning through a satisfying run stops exactly at the first
non-satisfying character. -/
theorem takeWhile_app_stop (p : Char → Bool) (o rest : List Char) (mid : Char)
    (ho : ∀ c ∈ o, p c = true) (hm : p mid = false) :
    (o ++ mid :: rest).takeWhile p = o ∧ (o ++ mid :: rest).dropWhile p = mid :: rest := by
  induction o with
  | nil => simp [List.takeWhile_cons, List.dropWhile_cons, hm]
  | cons a o ih =>
    have ha : p a = true := ho a (List.mem_cons_self a o)
    have ho' : ∀ c ∈ o, p c = true := fun c hc => ho c (List.mem_cons_of_mem a hc)
    have := ih ho'
    simp [List.takeWhile_cons, List.dropWhile_cons, ha, this.1, this.2]

/-- Scanning past a fully satisfying run continues into the suffix. -/
theorem takeWhile_app_all (p : Char → Bool) (l t : List Char)
    (hl : ∀ c ∈ l, p c = true) :
    (l ++ t).takeWhile p = l ++ t.takeWhile p := by
  induction l with
  | nil => rfl
  | cons a l ih =>
    have ha : p a = true := hl a (List.mem_cons_self a l)
    have hl' : ∀ c ∈ l, p c = true := fun c hc => hl c (List.mem_cons_of_mem a hc)
    simp [List.takeWhile_cons, ha, ih hl']

/-- The slash-free scan over a repo segment stops at `/pull/`. -/
theorem takeWhile_pull_stop (rp rest : List Char)
    (hrall : ∀ c ∈ rp, notSlash c = true) :
    (rp ++ ("/pull/".data ++ rest)).takeWhile notSlash = rp ∧
    (rp ++ ("/pull/".data ++ rest)).dropWhile notSlash = "/pull/".data ++ rest :=
  takeWhile_app_stop notSlash rp ("pull/".data ++ rest) '/' hrall (by decide)

/-- The grammar-shaped list passes the exact-form checker. -/
theorem exactForm_build (o rp ds : List Char)
    (ho : o.isEmpty = false) (hoall : ∀ c ∈ o, notSlash c = true)
    (hr : rp.isEmpty = false) (hrall : ∀ c ∈ rp, notSlash c = true)
    (hd : ds ≠ []) (hdall : ∀ c ∈ ds, c.isDigit = true) :
    exactPrUrlFormL
      ("https://github.com/".data ++ (o ++ '/' :: (rp ++ ("/pull/".data ++ ds)))) = true := by
  have hs1 := takeWhile_app_stop notSlash o (rp ++ ("/pull/".data ++ ds)) '/' hoall (by decide)
  have hs2 := takeWhile_pull_stop rp ds hrall
  simp only [exactPrUrlFormL, dropPfx_append, hs1.1, hs1.2, ho, hs2.1, hs2.2, hr,
    dropPfx_append, Bool.false_eq_true, if_false]
  simp [List.isEmpty_eq_false.mpr hd, List.all_eq_true.mpr hdall]

/-- The parser accepts any extension of a grammar-shaped list. -/
theorem parse_app_form (o rp ds t : List Char)
    (ho : o.isEmpty = false) (hoall : ∀ c ∈ o, notSlash c = true)
    (hr : rp.isEmpty = false) (hrall : ∀ c ∈ rp, notSlash c = true)
    (hd : ds ≠ []) (hdall : ∀ c ∈ ds, c.isDigit = true) :
    (parsePrUrlL
      ("https://github.com/".data ++ (o ++ '/' :: (rp ++ ("/pull/".data ++ ds))) ++ t)).isSome
      = true := by
  have hassoc :
      "https://github.com/".data ++ (o ++ '/' :: (rp ++ ("/pull/".data ++ ds))) ++ t =
      "https://github.com/".data ++ (o ++ '/' :: (rp ++ ("/pull/".data ++ (ds ++ t)))) := by
    simp [List.append_assoc]
  rw [hassoc]
  have hs1 := takeWhile_app_stop notSlash o (rp ++ ("/pull/".data ++ (ds ++ t))) '/' hoall
    (by decide)
  have hs2 := takeWhile_pull_stop rp (ds ++ t) hrall
  have hds : (ds ++ t).takeWhile Char.isDigit = ds ++ t.takeWhile Char.isDigit :=
    takeWhile_app_all Char.isDigit ds t hdall
  have hdsne : (ds ++ t.takeWhile Char.isDigit).isEmpty = false :=
    List.isEmpty_eq_false.mpr (List.append_ne_nil_of_left_ne_nil hd _)
  simp only [parsePrUrlL, dropPfx_append, hs1.1, hs1.2, ho, hs2.1, hs2.2, hr,
    hds, hdsne, Bool.false_eq_true, if_false, Option.isSome_some]

/-- List algebra used to rebuild the input from the parser's pieces. -/
theorem assemble_eq (P PD tw1 tw3 tw5 dw5 dw3 r1 r3 r5 : List Char)
    (e1 : tw5 ++ dw5 = r5) (e2 : PD ++ r5 = dw3) (e3 : tw3 ++ dw3 = r3)
    (e4 : tw1 ++ ('/' :: r3) = r1) :
    P ++ r1 = (P ++ (tw1 ++ '/' :: (tw3 ++ (PD ++ tw5)))) ++ dw5 := by
  subst e1
  subst e2
  subst e3
  subst e4
  simp [List.append_assoc]

/-- List algebra used to expose the grammar shape of a checked input. -/
theorem disassemble_eq (P PD tw1 tw3 dw3 r1 r3 r5 : List Char)
    (e2 : PD ++ r5 = dw3) (e3 : tw3 ++ dw3 = r3) (e4 : tw1 ++ ('/' :: r3) = r1) :
    P ++ r1 = P ++ (tw1 ++ '/' :: (tw3 ++ (PD ++ r5))) := by
  subst e2
  subst e3
  subst e4
  rfl

/-- Soundness half of the parser characterization: a successful parse
exposes an exact-form prefix. -/
theorem parse_sound (cs : List Char) (h : (parsePrUrlL cs).isSome = true) :
    ∃ p t, cs = p ++ t ∧ exactPrUrlFormL p = true := by
  simp only [parsePrUrlL] at h
  split at h
  next => simp at h
  next r1 hpfx =>
    split at h
    next => simp at h
    next ho =>
      split at h
      next r3 hdrop =>
        split at h
        next => simp at h
        next hr =>
          split at h
          next => simp at h
          next r5 hpull =>
            split at h
            next => simp at h
            next hds =>
              have h1 := dropPfx_eq_some _ _ _ hpfx
              have e1 : r5.takeWhile Char.isDigit ++ r5.dropWhile Char.isDigit = r5 :=
                List.takeWhile_append_dropWhile _ _
              have e2 := (dropPfx_eq_some _ _ _ hpull).symm
              have e3 : r3.takeWhile notSlash ++ r3.dropWhile notSlash = r3 :=
                List.takeWhile_append_dropWhile _ _
              have e4 : r1.takeWhile notSlash ++ r1.dropWhile notSlash = r1 :=
                List.takeWhile_append_dropWhile _ _
              rw [hdrop] at e4
              refine ⟨"https://github.com/".data ++
                  (r1.takeWhile notSlash ++ '/' :: (r3.takeWhile notSlash ++
                    ("/pull/".data ++ r5.takeWhile Char.isDigit))),
                r5.dropWhile Char.isDigit, ?_, ?_⟩
              · rw [h1]
                exact assemble_eq _ _ _ _ _ _ _ _ _ _ e1 e2 e3 e4
              · apply exactForm_build
                · simpa using ho
                · exact fun c hc => List.mem_takeWhile_imp hc
                · simpa using hr
                · exact fun c hc => List.mem_takeWhile_imp hc
                · have hde : (r5.takeWhile Char.isDigit).isEmpty = false := by
                    simpa using hds
                  exact List.isEmpty_eq_false.mp hde
                · exact fun c hc => List.mem_takeWhile_imp hc
      next => simp at h

/-- Completeness half of the parser characterization: the parser accepts
every extension of an exact-form list. -/
theorem exact_complete (p t : List Char) (hform : exactPrUrlFormL p = true) :
    (parsePrUrlL (p ++ t)).isSome = true := by
  simp only [exactPrUrlFormL] at hform
  split at hform
  next => simp at hform
  next r1 hpfx =>
    split at hform
    next => simp at hform
    next ho =>
      split at hform
      next r3 hdrop =>
        split at hform
        next => simp at hform
        next hr =>
          split at hform
          next => simp at hform
          next r5 hpull =>
            rw [Bool.and_eq_true] at hform
            obtain ⟨hne, hall⟩ := hform
            have hne' : r5 ≠ [] := by
              have h5 : r5.isEmpty = false := by simpa using hne
              exact List.isEmpty_eq_false.mp h5
            have hall' : ∀ c ∈ r5, c.isDigit = true := List.all_eq_true.mp hall
            have h1 := dropPfx_eq_some _ _ _ hpfx
            have e2 := (dropPfx_eq_some _ _ _ hpull).symm
            have e3 : r3.takeWhile notSlash ++ r3.dropWhile notSlash = r3 :=
              List.takeWhile_append_dropWhile _ _
            have e4 : r1.takeWhile notSlash ++ r1.dropWhile notSlash = r1 :=
              List.takeWhile_append_dropWhile _ _
            rw [hdrop] at e4
            have hp := disassemble_eq "https://github.com/".data _ _ _ _ _ _ _ e2 e3 e4
            rw [h1, hp]
            exact parse_app_form _ _ _ t (by simpa using ho)
              (fun c hc => List.mem_takeWhile_imp hc) (by simpa using hr)
              (fun c hc => List.mem_takeWhile_imp hc) hne' hall'
      next => simp at hform

/-! ## Claim theorems -/

/-- C1 (counterexample): opening the same source twice in a row through
the stdio gateway does NOT return the same handle id — `open_repository`
draws a fresh `uuid.uuid4()` (modelled as the fresh-id supply) on every
call, so the second id differs from the first. -/
theorem open_repository_not_idempotent_cex :
    (openRepository (openRepository {} "/tmp/r").2 "/tmp/r").1 ≠
      (openRepository ({} : ServerState) "/tmp/r").1 := by
  decide

/-- C1 (amended): opening a repository through the stdio gateway is not
idempotent — every `open_repository` call returns the next fresh id from
the supply, the id does not depend on the source argument, and a second
call (with any source, in particular the same one) returns an id
different from the first. -/
theorem open_repository_fresh_ids (st : ServerState) (s t : String) :
    (openRepository st s).1 = st.nextId ∧
    (openRepository st s).1 = (openRepository st t).1 ∧
    (openRepository (openRepository st s).2 t).1 ≠ (openRepository st s).1 := by
  refine ⟨rfl, rfl, ?_⟩
  simp [openRepository]

/-- C2 (code bug): the guard's `str.startswith` comparison accepts a
path that resolves OUTSIDE the repository root — with root `/tmp/repo`,
the parameter `../repo2/secret` resolves to `/tmp/repo2/secret`, which
is accepted because the string `/tmp/repo2/secret` starts with
`/tmp/repo`, yet it is not a descendant of the root. -/
theorem check_within_repo_accepts_sibling_escape :
    checkWithinRepo ["tmp", "repo"] "../repo2/secret" = some ["tmp", "repo2", "secret"] ∧
    isDescendant ["tmp", "repo"] ["tmp", "repo2", "secret"] = false :=
  ⟨by decide, by decide⟩

/-- C3 (code bug): when no extracted symbol matches the requested name,
`summarize_function` raises `ValueError` (not the `SymbolNotFoundError`
the endpoint catches), so the HTTP summary endpoint answers 400
"Configuration error" without ever trying the class summarizer, instead
of the documented 404. -/
theorem get_summary_unknown_symbol_maps_to_400 :
    (summarizeFunction (.openaiCfg "gpt-4o") (fun _ => none) {} "m.py" "nope"
        [{ name := some "foo", type := some "function", code := some "def foo(): pass" }]).1 =
      .error (.valueError "Could not find function 'nope' in 'm.py'.") ∧
    getSummary (.ok "file summary")
        ((summarizeFunction (.openaiCfg "gpt-4o") (fun _ => none) {} "m.py" "nope"
          [{ name := some "foo", type := some "function", code := some "def foo(): pass" }]).1)
        (.error (.valueError "Could not find class 'nope' in 'm.py'."))
        "m.py" (some "nope") =
      .error (400, "Configuration error: Could not find function 'nope' in 'm.py'.") :=
  ⟨rfl, rfl⟩

/-- C4 (counterexample): an over-ceiling OpenAI chat prompt does not
make the call fail — `summarize_file` RETURNS the "prompt too large"
string as its ordinary result (no provider request is issued); and with
an Anthropic config the same over-ceiling estimate is never consulted
and the provider request IS issued. -/
theorem prompt_too_large_not_a_failure_cex :
    summarizeFile (.openaiCfg "gpt-4o") (fun _ => some 20000) {} "f.py" (some "x") =
      (.ok "Summary generation failed: OpenAI prompt too large (20000 tokens). Limit is 15000 tokens.",
       false) ∧
    (summarizeFile (.anthropicCfg "claude-3-opus-20240229") (fun _ => some 20000)
        { text := some "S." } "f.py" (some "x")).2 = true :=
  ⟨rfl, rfl⟩

/-- C4 (amended): only the OpenAI chat branch enforces the 15,000-token
ceiling, and exceeding it does not fail the call: the provider request
is skipped and the call returns (not raises) the string
"Summary generation failed: OpenAI prompt too large (N tokens). Limit is
15000 tokens."; the Anthropic branch performs no ceiling check and
issues the provider request. -/
theorem openai_prompt_ceiling_returns_message (model : String)
    (est : List (String × String) → Option Nat) (resp : ProviderResp)
    (path fc : String) (c : Nat)
    (h1 : strIsEmpty (pyStrip fc) = false)
    (h2 : fc.length ≤ MAX_FILE_SUMMARIZE_CHARS)
    (h3 : est [("system", sysFilePrompt), ("user", userFilePrompt path fc)] = some c)
    (h4 : c > OPENAI_MAX_PROMPT_TOKENS) :
    summarizeFile (.openaiCfg model) est resp path (some fc) =
      (.ok (promptTooLargeMsg c), false) ∧
    (summarizeFile (.anthropicCfg model) est resp path (some fc)).2 = true := by
  have hm2 : ¬ fc.length > MAX_FILE_SUMMARIZE_CHARS := Nat.not_lt.mpr h2
  have hm4 : ¬ fc.length > MAX_CHARS_FOR_SUMMARY :=
    Nat.not_lt.mpr (Nat.le_trans h2 (by decide))
  constructor
  · simp only [summarizeFile]
    rw [if_neg (by simp [h1]), if_neg hm2, if_neg hm4]
    simp only [chatDispatch]
    rw [h3]
    change finalizeSummary _
      (if c > OPENAI_MAX_PROMPT_TOKENS then (some (promptTooLargeMsg c), false)
       else (resp.text, true)) = _
    rw [if_pos h4]
    simp only [finalizeSummary]
    rw [pyStrip_promptTooLargeMsg]
    rw [if_neg (by simp [strIsEmpty_false_of_head _ 'S' (promptTooLargeMsg_head c)])]
  · simp only [summarizeFile]
    rw [if_neg (by simp [h1]), if_neg hm2, if_neg hm4]
    simp only [chatDispatch]
    exact finalizeSummary_snd _ _ _

/-- Witness for C4 at a concrete over-ceiling OpenAI call. -/
theorem openai_prompt_ceiling_returns_message_witness :
    strIsEmpty (pyStrip "x") = false ∧ (20000 : Nat) > OPENAI_MAX_PROMPT_TOKENS ∧
    summarizeFile (.openaiCfg "gpt-4o") (fun _ => some 20000) {} "f.py" (some "x") =
      (.ok (promptTooLargeMsg 20000), false) :=
  ⟨rfl, by decide,
   (openai_prompt_ceiling_returns_message "gpt-4o" (fun _ => some 20000) {} "f.py" "x"
      20000 rfl (by decide) rfl (by decide)).1⟩

/-- C5 (counterexample): at 25,001 characters `summarize_file` returns
the string "File content too large (25001 characters) to summarize with
current limits.", which differs from the placeholder the claim states
("File content too large (25001 characters) to summarize."). -/
theorem summarize_file_oversize_string_cex :
    summarizeFile (.openaiCfg "gpt-4o") (fun _ => some 1) {} "big.py"
        (some bigFileContent) =
      (.ok (fileTooLargeLimitsMsg 25001), false) ∧
    fileTooLargeLimitsMsg 25001 ≠ fileTooLargeMsg 25001 := by
  constructor
  · have h1 : strIsEmpty (pyStrip bigFileContent) = false := by
      rw [show bigFileContent = String.mk (List.replicate (25000 + 1) 'a') from rfl,
        strip_replicate_a]
      exact strIsEmpty_replicate_a 25000
    have hlen : bigFileContent.length = 25001 := length_replicate_str 25001
    have h2 : bigFileContent.length > MAX_FILE_SUMMARIZE_CHARS := by
      rw [hlen]; decide
    rw [show (25001 : Nat) = bigFileContent.length from hlen.symm]
    exact summarizeFile_oversize_aux _ _ _ _ _ h1 h2
  · decide

/-- C5 (amended): for every non-blank file content longer than 25,000
characters, `summarize_file` returns (does not raise) the deterministic
string "File content too large (N characters) to summarize with current
limits." where N is the character count, and issues no provider
request. -/
theorem summarize_file_oversize_placeholder (cfg : LLMConfig)
    (est : List (String × String) → Option Nat) (resp : ProviderResp)
    (path fc : String) (h1 : strIsEmpty (pyStrip fc) = false)
    (h2 : fc.length > MAX_FILE_SUMMARIZE_CHARS) :
    summarizeFile cfg est resp path (some fc) =
      (.ok (fileTooLargeLimitsMsg fc.length), false) :=
  summarizeFile_oversize_aux cfg est resp path fc h1 h2

/-- Witness for C5 at a concrete 25,001-character content. -/
theorem summarize_file_oversize_placeholder_witness :
    strIsEmpty (pyStrip bigFileContent) = false ∧
    bigFileContent.length > MAX_FILE_SUMMARIZE_CHARS ∧
    summarizeFile (.anthropicCfg "claude-3-opus-20240229") (fun _ => some 1) {} "big.py"
        (some bigFileContent) =
      (.ok (fileTooLargeLimitsMsg bigFileContent.length), false) := by
  have h1 : strIsEmpty (pyStrip bigFileContent) = false := by
    rw [show bigFileContent = String.mk (List.replicate (25000 + 1) 'a') from rfl,
      strip_replicate_a]
    exact strIsEmpty_replicate_a 25000
  have h2 : bigFileContent.length > MAX_FILE_SUMMARIZE_CHARS := by
    rw [show bigFileContent.length = 25001 from length_replicate_str 25001]; decide
  exact ⟨h1, h2, summarize_file_oversize_placeholder _ _ _ _ _ h1 h2⟩

/-- C6 (counterexample): a located function span of 50,001 characters —
over the declared 50,000-char `MAX_CODE_LENGTH_CHARS` — is NOT given the
oversize placeholder: `summarize_function` proceeds to the provider and
returns its text. -/
theorem summarize_function_50k_not_oversize_cex :
    summarizeFunction (.openaiCfg "gpt-4o") (fun _ => none) { text := some "S." }
        "m.py" "big_fn" (fnSymbols midFnCode) =
      (.ok "S.", true) ∧
    midFnCode.length = 50001 ∧
    (50001 : Nat) > MAX_CODE_LENGTH_CHARS ∧
    "S." ≠ functionTooLargeMsg 50001 := by
  have h0 : findFunctionCode (fnSymbols midFnCode) "big_fn" = some midFnCode := rfl
  have h1 : strIsEmpty midFnCode = false := by
    rw [show midFnCode = String.mk (List.replicate (50000 + 1) 'a') from rfl]
    exact strIsEmpty_replicate_a 50000
  have hlen : midFnCode.length = 50001 := length_replicate_str 50001
  have hnot : ¬ midFnCode.length > MAX_CHARS_FOR_SUMMARY := by
    rw [hlen]; decide
  refine ⟨?_, hlen, by decide, by decide⟩
  simp only [summarizeFunction]
  rw [h0]
  change (if strIsEmpty midFnCode = true then _ else _) = _
  rw [if_neg (by simp [h1]), if_neg hnot]
  simp only [chatDispatch]
  rfl

/-- C6 (amended): the oversize cutoff `summarize_function` actually
applies is the local 400,000-char `MAX_CHARS_FOR_SUMMARY`, with the
placeholder "Function content too large (N characters) to summarize.";
a located non-empty span over that bound is returned as that placeholder
with no provider request (the 50,000-char `MAX_CODE_LENGTH_CHARS` is
declared but never used). -/
theorem summarize_function_oversize_400k (cfg : LLMConfig)
    (est : List (String × String) → Option Nat) (resp : ProviderResp)
    (path funcName : String) (symbols : List Sym) (fcode : String)
    (h0 : findFunctionCode symbols funcName = some fcode)
    (h1 : strIsEmpty fcode = false)
    (h2 : fcode.length > MAX_CHARS_FOR_SUMMARY) :
    summarizeFunction cfg est resp path funcName symbols =
      (.ok (functionTooLargeMsg fcode.length), false) :=
  summarizeFunction_oversize_aux cfg est resp path funcName symbols fcode h0 h1 h2

/-- Witness for C6 at a concrete 400,001-character span. -/
theorem summarize_function_oversize_400k_witness :
    findFunctionCode (fnSymbols hugeFnCode) "big_fn" = some hugeFnCode ∧
    strIsEmpty hugeFnCode = false ∧
    hugeFnCode.length > MAX_CHARS_FOR_SUMMARY ∧
    summarizeFunction (.openaiCfg "gpt-4o") (fun _ => some 1) {} "m.py" "big_fn"
        (fnSymbols hugeFnCode) =
      (.ok (functionTooLargeMsg hugeFnCode.length), false) := by
  have h0 : findFunctionCode (fnSymbols hugeFnCode) "big_fn" = some hugeFnCode := rfl
  have h1 : strIsEmpty hugeFnCode = false := by
    rw [show hugeFnCode = String.mk (List.replicate (400000 + 1) 'a') from rfl]
    exact strIsEmpty_replicate_a 400000
  have h2 : hugeFnCode.length > MAX_CHARS_FOR_SUMMARY := by
    rw [show hugeFnCode.length = 400001 from length_replicate_str 400001]; decide
  exact ⟨h0, h1, h2,
    summarize_function_oversize_400k _ _ _ _ _ _ _ h0 h1 h2⟩

/-- C7 (confirmed): the stdio tool-call handler always answers with
structured content — an unknown tool name yields an `INVALID_PARAMS`
error content, a schema (pydantic) violation yields `INVALID_PARAMS`
with the validation message, and any other exception from the logic
yields `INTERNAL_ERROR` with the exception message. -/
theorem call_tool_structured_errors (env : CallEnv) (name : String) :
    (knownTools.contains name = false →
      callTool env name = [.errorContent INVALID_PARAMS s!"Unknown tool: {name}"]) ∧
    (∀ m, knownTools.contains name = true → env.validate name = .error m →
      callTool env name = [.errorContent INVALID_PARAMS m]) ∧
    (∀ m, knownTools.contains name = true → env.validate name = .ok () →
      env.run name = .error (.otherExc m) →
      callTool env name = [.errorContent INTERNAL_ERROR m]) := by
  refine ⟨fun h => ?_, fun m h hv => ?_, fun m h hv hr => ?_⟩ <;>
    simp_all [callTool, callToolBody]

/-- Witness for C7 at concrete requests covering the three outcomes. -/
theorem call_tool_structured_errors_witness :
    callTool envRunBoom "bogus_tool" =
      [.errorContent INVALID_PARAMS "Unknown tool: bogus_tool"] ∧
    callTool envBadArgs "search_code" =
      [.errorContent INVALID_PARAMS "1 validation error for SearchParams"] ∧
    callTool envRunBoom "search_code" = [.errorContent INTERNAL_ERROR "boom"] :=
  ⟨(call_tool_structured_errors envRunBoom "bogus_tool").1 (by decide),
   (call_tool_structured_errors envBadArgs "search_code").2.1 _ (by decide) rfl,
   (call_tool_structured_errors envRunBoom "search_code").2.2 _ (by decide) rfl rfl⟩

/-- C8 (confirmed): once the PR is parsed, fetched and analyzed, the
simple review run returns the generated review comment whatever the
quality-validation step does — a below-0.6 score or an exception inside
validation is only printed and never fails the run (the result does not
mention the validation outcome at all). -/
theorem review_low_quality_never_fails (env : ReviewEnv) (prInput : String)
    (x : String × String × Nat) (pd : PrDetails) (fs : List PrFile) (a : String)
    (hp : parsePrUrl prInput = some x) (hd : env.details = .ok pd)
    (hf : env.files = .ok fs) (ha : env.analysis = .ok a) :
    reviewPrSimple env prInput =
      .ok (generateReviewComment env.kitVersion env.providerName a) := by
  unfold reviewPrSimple
  rw [hp, hd, hf, ha]
  cases hv : env.validation <;> simp

/-- Witness for C8 at a run whose validator reports a score below 0.6. -/
theorem review_low_quality_never_fails_witness :
    lowScoreEnv.validation = .ok { score := 1/2, issues := ["review too short"] } ∧
    (1/2 : ℚ) < 3/5 ∧
    reviewPrSimple lowScoreEnv "https://github.com/o/r/pull/7" =
      .ok (generateReviewComment "dev" "anthropic" "Looks fine overall.") :=
  ⟨rfl, by norm_num,
   review_low_quality_never_fails lowScoreEnv _ ("o", "r", 7) _ _ _ rfl rfl rfl rfl⟩

/-- C9 (counterexample): the input
`https://github.com/o/r/pull/1x` is not of the exact form
`https://github.com/<owner>/<repo>/pull/<n>`, yet `parse_pr_url`
succeeds on it (with `n = 1`), because `re.match` only anchors at the
start of the string. -/
theorem parse_pr_url_trailing_junk_cex :
    parsePrUrl "https://github.com/o/r/pull/1x" = some ("o", "r", 1) ∧
    exactPrUrlForm "https://github.com/o/r/pull/1x" = false :=
  ⟨by decide, by decide⟩

/-- C9 (amended): `parse_pr_url` succeeds exactly when some PREFIX of
the input has the form `https://github.com/<owner>/<repo>/pull/<n>`
(owner and repo nonempty and slash-free, `n` a nonempty digit run);
trailing characters after such a prefix are accepted and ignored, and
every other input raises `ValueError` (the pipeline's `InvalidInput`). -/
theorem parse_pr_url_prefix_form (s : String) :
    (parsePrUrl s).isSome = true ↔
      ∃ p t : List Char, s.data = p ++ t ∧ exactPrUrlFormL p = true := by
  constructor
  · exact fun h => parse_sound s.data h
  · rintro ⟨p, t, hs, hform⟩
    show (parsePrUrlL s.data).isSome = true
    rw [hs]
    exact exact_complete p t hform

/-- C10 (confirmed): a file whose content is empty or whitespace-only
makes `summarize_file` return the empty string with no provider request
— neither an error nor the oversize placeholder. -/
theorem summarize_file_blank_returns_empty (cfg : LLMConfig)
    (est : List (String × String) → Option Nat) (resp : ProviderResp)
    (path fc : String) (h : strIsEmpty (pyStrip fc) = true) :
    summarizeFile cfg est resp path (some fc) = (.ok "", false) := by
  simp [summarizeFile, h]

/-- Witness for C10 at a concrete whitespace-only content. -/
theorem summarize_file_blank_returns_empty_witness :
    strIsEmpty (pyStrip "  \n") = true ∧
    summarizeFile (.openaiCfg "gpt-4o") (fun _ => some 1) {} "f.py" (some "  \n") =
      (.ok "", false) :=
  ⟨rfl, summarize_file_blank_returns_empty _ _ _ _ _ rfl⟩

end Kit
